import Mathlib

/-!
Verification of the VANB orchestration core (pipeline manager, lifecycle
manager, health monitor, NDI name allocator) against its specification.
The Python source in `src/core` is shallowly embedded: pure string
manipulation is modelled over `String`/`List Char`, the stateful
coordinator is modelled by explicit state passing, and external
collaborators (the GStreamer scanner and engine) are modelled as
parameters of an `Env` record.
-/

deriving instance DecidableEq for Except

namespace VANB

/-! ### Python string primitives

The Python operations used by `core/ndi_manager.py` (`str.split`,
`str.startswith`, `in`, `int(...)`, `str(...)`) are modelled over the
character lists underlying `String`.  All recursions are structural
(fuelled where needed) so that concrete evaluations reduce in the kernel.
-/

/-- Python `s.startswith(pre)`. -/
def pyStartsWith (s pre : String) : Bool := pre.data.isPrefixOf s.data

/-- Scan for an occurrence of `pat` as a contiguous sublist (Python `pat in s`). -/
def containsSubAux (pat : List Char) : List Char → Bool
  | [] => pat.isEmpty
  | c :: cs => pat.isPrefixOf (c :: cs) || containsSubAux pat cs

/-- Python `pat in s` (substring containment). -/
def pyContains (s pat : String) : Bool := containsSubAux pat.data s.data

/-- Fuelled worker for Python `str.split(sep)` with non-empty separator:
splits at each leftmost non-overlapping occurrence of `sep`.  With
`fuel ≥ length of the input` the fuel never runs out. -/
def pySplitAux (sep : List Char) : Nat → List Char → List (List Char)
  | _, [] => [[]]
  | 0, s => [s]
  | fuel + 1, c :: cs =>
    if sep.isPrefixOf (c :: cs) then
      [] :: pySplitAux sep fuel (List.drop (sep.length - 1) cs)
    else
      match pySplitAux sep fuel cs with
      | p :: ps => (c :: p) :: ps
      | [] => [[c]]

/-- Python `split` at the level of character lists. -/
def pySplitL (sep s : List Char) : List (List Char) := pySplitAux sep s.length s

/-- Python `s.split(sep)` for a non-empty separator. -/
def pySplit (s sep : String) : List String :=
  (pySplitL sep.data s.data).map (fun l => String.mk l)

/-- Python `l[-1]` on the (always non-empty) result of `split`. -/
def pyLastD (l : List String) : String := l.getLastD ""

/-- Python `l[0]` on the (always non-empty) result of `split`. -/
def pyHeadD (l : List String) : String := l.headD ""

/-- Decimal digit test used by the `int(...)` model. -/
def isDigitChar (c : Char) : Bool := 48 ≤ c.toNat && c.toNat ≤ 57

/-- Numeric value of a decimal digit character. -/
def digitVal (c : Char) : Nat := c.toNat - 48

/-- Accumulate the value of a digit string; `none` on a non-digit. -/
def digitsVal (cs : List Char) : Option Nat :=
  cs.foldl
    (fun acc c =>
      match acc with
      | some a => if isDigitChar c then some (a * 10 + digitVal c) else none
      | none => none)
    (some 0)

/-- Parse a non-empty all-digit string; `none` otherwise. -/
def parseDigits (cs : List Char) : Option Nat :=
  if cs.isEmpty then none else digitsVal cs

/-- Strip leading and trailing whitespace (Python `int` ignores it). -/
def pyStrip (cs : List Char) : List Char :=
  ((cs.dropWhile Char.isWhitespace).reverse.dropWhile Char.isWhitespace).reverse

/-- Python `int(s)`: optional surrounding whitespace, optional single sign,
then a non-empty run of decimal digits; `none` models `ValueError`.
(Underscore separators and non-ASCII digits are not modelled.) -/
def pyIntList (cs : List Char) : Option Int :=
  match pyStrip cs with
  | [] => none
  | c :: rest =>
    if c = '-' then
      match parseDigits rest with
      | some n => some (-(n : Int))
      | none => none
    else if c = '+' then
      match parseDigits rest with
      | some n => some ((n : Int))
      | none => none
    else
      match parseDigits (c :: rest) with
      | some n => some ((n : Int))
      | none => none

/-- Python `int(s)`. -/
def pyInt (s : String) : Option Int := pyIntList s.data

/-- The decimal digit character for `n < 10`. -/
def digitChar (n : Nat) : Char := Char.ofNat (48 + n)

/-- Fuelled decimal digits of `n`, most significant first (`fuel > n` suffices). -/
def natDigitsAux : Nat → Nat → List Char
  | 0, _ => []
  | fuel + 1, n =>
    if n < 10 then [digitChar n]
    else natDigitsAux fuel (n / 10) ++ [digitChar (n % 10)]

/-- Decimal digits of `n`, most significant first. -/
def natDigits (n : Nat) : List Char := natDigitsAux (n + 1) n

/-- Python `str(n)` for a natural number. -/
def natRepr (n : Nat) : String := String.mk (natDigits n)

/-! ### NDI manager (`core/ndi_manager.py`)

The GStreamer-based scanner (`core/scanner.py`) is an external
collaborator; its result is a parameter `scan : Option (List String)`
(`none` models the scan returning `None` on failure).
-/

/-- Model of `NDISource` dataclass from `core/ndi_manager.py`. -/
structure NDISource where
  name : String
  is_active : Bool := true
deriving DecidableEq

/-- Lexicographic order on character lists (Python string comparison). -/
def charListLe : List Char → List Char → Bool
  | [], _ => true
  | _ :: _, [] => false
  | a :: as, b :: bs => if a = b then charListLe as bs else decide (a < b)

/-- Stable insertion used to model Python `sorted(..., key=lambda x: x.name)`:
the new element goes after all elements whose key is `≤` its key. -/
def insertSorted (x : NDISource) : List NDISource → List NDISource
  | [] => [x]
  | y :: ys =>
    if charListLe y.name.data x.name.data then y :: insertSorted x ys
    else x :: y :: ys

/-- Stable sort by `name` (Python `sorted(result, key=lambda x: x.name)`). -/
def sortByName (l : List NDISource) : List NDISource :=
  l.foldl (fun acc x => insertSorted x acc) []

/-- Model of `NDIManager.scan_sources`: wraps each scanned identifier in an
`NDISource` with `is_active = True` and returns them sorted by name;
a failed scan (`None`) yields the empty list. -/
def scan_sources (scan : Option (List String)) : List NDISource :=
  match scan with
  | none => []
  | some sources => sortByName (sources.map (fun s => { name := s, is_active := true }))

/-- One iteration of the collection loop in `NDIManager._get_sequence_number`:
for a name containing `"VANB-Rx-"`, parse
`int(name.split("VANB-Rx-")[-1].split(")")[0])` and keep it if positive;
parse failures are skipped. -/
def parseRxNum (name : String) : Option Nat :=
  if pyContains name "VANB-Rx-" then
    match pyInt (pyHeadD (pySplit (pyLastD (pySplit name "VANB-Rx-")) ")")) with
    | some number => if 0 < number then some number.toNat else none
    | none => none
  else none

/-- The `while sequence_number in existing_numbers` loop of
`NDIManager._get_sequence_number`; `fuel = length + 1` always suffices. -/
def seqLoop (existing : List Nat) : Nat → Nat → Nat
  | 0, k => k
  | fuel + 1, k => if k ∈ existing then seqLoop existing fuel (k + 1) else k

/-- Model of `NDIManager._get_sequence_number`. -/
def get_sequence_number (ndi_names : List String) : Nat :=
  let existing := ndi_names.filterMap parseRxNum
  seqLoop existing (existing.length + 1) 1

/-- Model of `NDIManager._verify_ndi_name`: the candidate must start with the
hardcoded `"VANB-Rx-"`, its last `"-"`-separated field must parse to a
positive integer, and it must differ from every existing name. -/
def verify_ndi_name (ndi_name : String) (ndi_names : List String) : Bool :=
  if !(pyStartsWith ndi_name "VANB-Rx-") then false
  else
    match pyInt (pyLastD (pySplit ndi_name "-")) with
    | some number =>
      if number ≤ 0 then false
      else ndi_names.all (fun existing_name => ndi_name ≠ existing_name)
    | none => false

/-- Model of `NDIManager.generate_unique_name`: scans, computes the next sequence
number, forms `f"{prefix}-{sequence_number}"` and validates it; a failed
validation raises `ValueError` (modelled as `Except.error`). -/
def generate_unique_name (pfx : String) (scan : Option (List String)) :
    Except String String :=
  let sources := scan_sources scan
  let ndi_names := sources.map (fun s => s.name)
  let sequence_number := get_sequence_number ndi_names
  let new_ndi_name := pfx ++ "-" ++ natRepr sequence_number
  if verify_ndi_name new_ndi_name ndi_names then Except.ok new_ndi_name
  else Except.error ("无法使用NDI名称: " ++ new_ndi_name ++ " (已被占用)")

/-- The names visible to `generate_unique_name` for a given scan result. -/
def namesOf (scan : Option (List String)) : List String :=
  (scan_sources scan).map (fun s => s.name)

/-- The set (as a list) of sequence numbers extracted from a scan result. -/
def rxNumbers (scan : Option (List String)) : List Nat :=
  (namesOf scan).filterMap parseRxNum

/-! ### Lifecycle manager (`core/pipeline_factory.py`) -/

/-- The retry bookkeeping of `PipelineLifecycleManager`. -/
structure LifecycleManager where
  retry_count : Nat
  max_retries : Nat
deriving DecidableEq

/-- Model of `PipelineLifecycleManager.__init__`: counter 0, maximum 3. -/
def LifecycleManager.new : LifecycleManager := { retry_count := 0, max_retries := 3 }

/-- Model of `PipelineLifecycleManager.handle_error`: increment the counter first,
then return `false` (stop retrying) exactly when it exceeds the maximum. -/
def handle_error (lm : LifecycleManager) : Bool × LifecycleManager :=
  let lm' := { lm with retry_count := lm.retry_count + 1 }
  if lm'.retry_count > lm'.max_retries then (false, lm') else (true, lm')

/-- Model of `PipelineLifecycleManager.reset_retry_count`. -/
def reset_retry_count (lm : LifecycleManager) : LifecycleManager :=
  { lm with retry_count := 0 }

/-- State of the lifecycle manager after `n` consecutive `handle_error` calls. -/
def callsN : Nat → LifecycleManager → LifecycleManager
  | 0, lm => lm
  | n + 1, lm => (handle_error (callsN n lm)).2

/-- Model of `AbstractPipelineLifecycle.pre_start`: logs and returns `True`. -/
def pre_start : Bool := true

/-- Model of `PipelineLifecycleManager.start`: `pre_start`, then the handle's
`create()` and `start()` (external engine calls, modelled by the two
booleans), short-circuiting on the first failure. -/
def lifecycle_start (create_ok play_ok : Bool) : Bool :=
  if !pre_start then false
  else if !create_ok then false
  else if !play_ok then false
  else true

/-- Model of `PipelineLifecycleManager.stop`: runs the `pre_stop` hook, the
handle's `stop()`, and the `post_stop` hook inside one `try`; any raise
(modelled by `Except.error`) is logged and swallowed. -/
def lifecycle_stop (pre_stop handle_stop post_stop : Except String Unit) :
    Except String Unit :=
  match pre_stop with
  | Except.error _ => Except.ok ()
  | Except.ok _ =>
    match handle_stop with
    | Except.error _ => Except.ok ()
    | Except.ok _ =>
      match post_stop with
      | Except.error _ => Except.ok ()
      | Except.ok _ => Except.ok ()

/-! ### Pipeline manager (`core/pipeline_manager.py`)

External collaborators are collected in `Env`: the scanner result and
the pipeline handle's behaviour (constructor success, `create()`,
`start()`, `verify_stream()`), plus the current wall-clock time.
-/

/-- Model of `PipelineMode` enumeration. -/
inductive PipelineMode
  | transmit
  | receive
deriving DecidableEq

/-- The mode-tagged configuration dict built by
`PipelineManager._create_pipeline_config` (its keys are fixed per mode). -/
inductive PipelineConfig
  | rx (rtmp_url ndi_name : String)
  | tx (ndi_source rtmp_url : String) (video_bitrate audio_bitrate : Nat)
      (video_format : String) (audio_rate audio_channels : Nat)
deriving DecidableEq

/-- The keyword arguments accepted by `start_pipeline` /
`_create_pipeline_config` (`none` models an absent key). -/
structure Kwargs where
  rtmp_url : Option String := none
  pfx : Option String := none
  ndi_name : Option String := none
  ndi_source : Option String := none
  video_bitrate : Option Nat := none
  audio_bitrate : Option Nat := none
  video_format : Option String := none
  audio_rate : Option Nat := none
  audio_channels : Option Nat := none
deriving DecidableEq

/-- External behaviour for one coordinator operation. -/
structure Env where
  scan : Option (List String)
  construct_ok : Bool
  create_ok : Bool
  play_ok : Bool
  verify_stream : Bool
  now : Nat
deriving DecidableEq

/-- Model of `PipelineContext` dataclass: mode, pipeline handle (its presence),
lifecycle manager, start timestamp and the config used to create it. -/
structure PipelineContext where
  mode : PipelineMode
  pipeline : Bool
  lifecycle_manager : Option LifecycleManager
  start_time : Nat
  config : PipelineConfig
deriving DecidableEq

/-- The mutable state of `PipelineManager`. -/
structure ManagerState where
  context : Option PipelineContext
  monitoring : Bool
deriving DecidableEq

/-- Model of `PipelineManager._create_pipeline_config`.  Receive: requires
`rtmp_url`, generates a fresh NDI name with the supplied or default
prefix.  Transmit: requires `rtmp_url`; a missing or empty (falsy)
`ndi_source` triggers auto-selection of the first active scanned source;
no active source raises `ValueError`. -/
def create_pipeline_config (env : Env) (mode : PipelineMode) (kwargs : Kwargs) :
    Except String PipelineConfig :=
  match mode with
  | PipelineMode.receive =>
    match kwargs.rtmp_url with
    | none => Except.error "接收模式需要提供rtmp_url参数"
    | some url =>
      match generate_unique_name (kwargs.pfx.getD "VANB-Rx") env.scan with
      | Except.error e => Except.error e
      | Except.ok ndi_name => Except.ok (PipelineConfig.rx url ndi_name)
  | PipelineMode.transmit =>
    match kwargs.rtmp_url with
    | none => Except.error "发送模式需要提供rtmp_url参数"
    | some url =>
      let explicit := kwargs.ndi_source.getD ""
      if explicit = "" then
        match (scan_sources env.scan).filter (fun s => s.is_active) with
        | [] => Except.error "未找到活跃的NDI源"
        | s :: _ =>
          Except.ok (PipelineConfig.tx s.name url (kwargs.video_bitrate.getD 2000)
            (kwargs.audio_bitrate.getD 128000) (kwargs.video_format.getD "I420")
            (kwargs.audio_rate.getD 44100) (kwargs.audio_channels.getD 2))
      else
        Except.ok (PipelineConfig.tx explicit url (kwargs.video_bitrate.getD 2000)
          (kwargs.audio_bitrate.getD 128000) (kwargs.video_format.getD "I420")
          (kwargs.audio_rate.getD 44100) (kwargs.audio_channels.getD 2))

/-- The registry key chosen by `start_pipeline` for a mode. -/
def pipelineTypeOf (mode : PipelineMode) : String :=
  if mode = PipelineMode.receive then "rx" else "tx"

/-- Model of `PipelineFactory.create_pipeline` composed with `_create_rx_pipeline`
/ `_create_tx_pipeline`: an unknown registry key or a config missing the
mode's required keys yields `None`; otherwise the Rx/Tx pipeline
constructor runs (external engine, success modelled by
`env.construct_ok`).  Returns whether a handle was produced. -/
def factory_create (env : Env) (ptype : String) (config : PipelineConfig) : Bool :=
  if ptype = "rx" then
    match config with
    | PipelineConfig.rx _ _ => env.construct_ok
    | _ => false
  else if ptype = "tx" then
    match config with
    | PipelineConfig.tx _ _ _ _ _ _ _ => env.construct_ok
    | _ => false
  else false

/-- Model of `PipelineManager.stop_pipeline`: if a context with a lifecycle
manager exists, clear the monitoring flag, stop the lifecycle manager
(which never raises), and clear the context; otherwise do nothing. -/
def stop_pipeline (st : ManagerState) : ManagerState :=
  match st.context with
  | some ctx =>
    if ctx.lifecycle_manager.isSome then { context := none, monitoring := false }
    else st
  | none => st

/-- Model of `PipelineManager._start_monitoring`: sets the monitoring flag (the
GLib timer registration is external). -/
def start_monitoring (st : ManagerState) : ManagerState :=
  if st.monitoring then st else { st with monitoring := true }

/-- The context record built by `start_pipeline`: fresh lifecycle
manager, current timestamp, and the just-built config. -/
def fresh_context (env : Env) (mode : PipelineMode) (config : PipelineConfig) :
    PipelineContext :=
  { mode := mode, pipeline := true, lifecycle_manager := some LifecycleManager.new,
    start_time := env.now, config := config }

/-- The opening step of `start_pipeline`: stop the existing pipeline if
a context with a pipeline handle is present. -/
def ensure_stopped (st : ManagerState) : ManagerState :=
  match st.context with
  | some ctx => if ctx.pipeline then stop_pipeline st else st
  | none => st

/-- Model of `PipelineManager.start_pipeline`: stop any existing pipeline, build
the config (a raise is caught by the surrounding `try` and yields
`False`), build the pipeline via the factory (`None` yields `False`),
record the new context, then run the lifecycle start; on lifecycle
failure it returns `False` with the new context still recorded. -/
def start_pipeline (env : Env) (st : ManagerState) (mode : PipelineMode)
    (kwargs : Kwargs) : Bool × ManagerState :=
  let st1 := ensure_stopped st
  match create_pipeline_config env mode kwargs with
  | Except.error _ => (false, st1)
  | Except.ok config =>
    if !(factory_create env (pipelineTypeOf mode) config) then (false, st1)
    else
      let st2 := { st1 with context := some (fresh_context env mode config) }
      if !(lifecycle_start env.create_ok env.play_ok) then (false, st2)
      else (true, start_monitoring st2)

/-- Model of `PipelineManager.is_running`: a context with a pipeline handle whose
stream verifies. -/
def is_running (env : Env) (st : ManagerState) : Bool :=
  match st.context with
  | some ctx => ctx.pipeline && env.verify_stream
  | none => false

/-- Replaying a saved config as keyword arguments
(`self.start_pipeline(mode, **config)` in `_restart_pipeline`). -/
def configToKwargs : PipelineConfig → Kwargs
  | PipelineConfig.rx url name => { rtmp_url := some url, ndi_name := some name }
  | PipelineConfig.tx src url vb ab vf ar ac =>
    { ndi_source := some src, rtmp_url := some url, video_bitrate := some vb,
      audio_bitrate := some ab, video_format := some vf, audio_rate := some ar,
      audio_channels := some ac }

/-- Model of `PipelineManager._restart_pipeline`: save the context's mode and
config, stop, wait the cooldown (no state effect), and start again with
the saved mode and config splatted as keyword arguments. -/
def restart_pipeline (env : Env) (st : ManagerState) : ManagerState :=
  match st.context with
  | none => st
  | some ctx =>
    (start_pipeline env (stop_pipeline st) ctx.mode (configToKwargs ctx.config)).2

/-- The `monitor` closure registered by `_start_monitoring`: returns the
boolean handed back to the GLib timer (`true` keeps the timer scheduled)
together with the updated coordinator state. -/
def monitor (env : Env) (st : ManagerState) : Bool × ManagerState :=
  if !st.monitoring then (false, st)
  else if !(is_running env st) then
    match st.context with
    | some ctx =>
      match ctx.lifecycle_manager with
      | some lm =>
        let res := handle_error lm
        let st1 := { st with context := some { ctx with lifecycle_manager := some res.2 } }
        if res.1 then (true, restart_pipeline env st1) else (true, st1)
      | none => (true, st)
    | none => (true, st)
  else (true, st)

/-! ### Concrete instances used in witnesses and counterexamples -/

/-- An environment whose engine works and whose scan sees one stale
`"VANB-Rx-1"` registration; the stream check fails. -/
def envRestartRx : Env :=
  { scan := some ["VANB-Rx-1"], construct_ok := true, create_ok := true,
    play_ok := true, verify_stream := false, now := 5 }

/-- A healthy environment with an empty scan. -/
def envHealthy : Env :=
  { scan := some [], construct_ok := true, create_ok := true,
    play_ok := true, verify_stream := true, now := 9 }

/-- An environment whose engine `create()` call fails. -/
def envCreateFails : Env :=
  { scan := some [], construct_ok := true, create_ok := false,
    play_ok := true, verify_stream := true, now := 7 }

/-- A saved Receive context with NDI name `"VANB-Rx-1"`. -/
def ctxRx1 : PipelineContext :=
  { mode := PipelineMode.receive, pipeline := true,
    lifecycle_manager := some { retry_count := 0, max_retries := 3 },
    start_time := 0, config := PipelineConfig.rx "rtmp://s/l" "VANB-Rx-1" }

/-- A saved Transmit context with source `"CamA"`. -/
def ctxTxA : PipelineContext :=
  { mode := PipelineMode.transmit, pipeline := true,
    lifecycle_manager := some { retry_count := 2, max_retries := 3 },
    start_time := 1,
    config := PipelineConfig.tx "CamA" "rtmp://s/l" 2000 128000 "I420" 44100 2 }

/-- A Transmit context whose retry budget is exhausted. -/
def ctxTxExhausted : PipelineContext :=
  { mode := PipelineMode.transmit, pipeline := true,
    lifecycle_manager := some { retry_count := 3, max_retries := 3 },
    start_time := 0,
    config := PipelineConfig.tx "CamA" "rtmp://s/l" 2000 128000 "I420" 44100 2 }

/-! ### Lemmas about the string primitives -/

theorem isPrefixOf_append (p t : List Char) : p.isPrefixOf (p ++ t) = true := by
  induction p with
  | nil => simp [List.isPrefixOf]
  | cons a as ih => simp [List.isPrefixOf, ih]

theorem isPrefixOf_cons_of_ne {v c : Char} (sep' : List Char) (h : v ≠ c)
    (t : List Char) : (v :: sep').isPrefixOf (c :: t) = false := by
  simp [List.isPrefixOf, h]

theorem pySplitAux_congr (sep : List Char) :
    ∀ f₁ s, s.length ≤ f₁ → ∀ f₂, s.length ≤ f₂ →
      pySplitAux sep f₁ s = pySplitAux sep f₂ s := by
  intro f₁
  induction f₁ with
  | zero =>
    intro s hs f₂ _
    have : s = [] := List.length_eq_zero.mp (Nat.le_zero.mp hs)
    subst this
    cases f₂ <;> rfl
  | succ g ih =>
    intro s hs f₂ h₂
    cases s with
    | nil => cases f₂ <;> rfl
    | cons c cs =>
      cases f₂ with
      | zero => simp at h₂
      | succ f =>
        simp only [pySplitAux]
        have hcs : cs.length ≤ g := by simpa using hs
        have hcs' : cs.length ≤ f := by simpa using h₂
        by_cases hp : sep.isPrefixOf (c :: cs) = true
        · rw [if_pos hp, if_pos hp]
          have hd : (List.drop (sep.length - 1) cs).length ≤ g := by
            have := List.length_drop (sep.length - 1) cs
            omega
          have hd' : (List.drop (sep.length - 1) cs).length ≤ f := by
            have := List.length_drop (sep.length - 1) cs
            omega
          rw [ih _ hd _ hd']
        · rw [if_neg hp, if_neg hp]
          rw [ih cs hcs f hcs']

theorem pySplitL_match (sep t : List Char) (hne : sep ≠ []) :
    pySplitL sep (sep ++ t) = [] :: pySplitL sep t := by
  cases sep with
  | nil => exact absurd rfl hne
  | cons v sep' =>
    show pySplitAux (v :: sep') ((v :: sep') ++ t).length ((v :: sep') ++ t) = _
    have hlen : ((v :: sep') ++ t).length = (sep'.length + t.length) + 1 := by
      simp only [List.cons_append, List.length_cons, List.length_append]
    rw [hlen]
    show pySplitAux (v :: sep') (sep'.length + t.length + 1) (v :: (sep' ++ t)) = _
    simp only [pySplitAux]
    have hpre : (v :: sep').isPrefixOf (v :: (sep' ++ t)) = true := by
      have h := isPrefixOf_append (v :: sep') t
      simp only [List.cons_append] at h
      exact h
    rw [if_pos hpre]
    have hdrop : List.drop ((v :: sep').length - 1) (sep' ++ t) = t := by
      simp only [List.length_cons, Nat.add_sub_cancel]
      exact List.drop_left sep' t
    rw [hdrop]
    have := pySplitAux_congr (v :: sep') (sep'.length + t.length) t
      (by omega) t.length (Nat.le_refl _)
    rw [this]
    rfl

theorem pySplitL_cons_of_not_pre {sep : List Char} {c : Char} {cs p : List Char}
    {ps : List (List Char)} (h : sep.isPrefixOf (c :: cs) = false)
    (h2 : pySplitL sep cs = p :: ps) :
    pySplitL sep (c :: cs) = (c :: p) :: ps := by
  have h2' : pySplitAux sep cs.length cs = p :: ps := h2
  show pySplitAux sep (c :: cs).length (c :: cs) = _
  simp only [List.length_cons, pySplitAux]
  rw [if_neg (by simp [h]), h2']

theorem pySplitL_no_occurrence (v : Char) (sep' t : List Char) (h : v ∉ t) :
    pySplitL (v :: sep') t = [t] := by
  induction t with
  | nil => rfl
  | cons c cs ih =>
    have hv : v ≠ c := fun e => h (e ▸ List.mem_cons_self c cs)
    have hpre := isPrefixOf_cons_of_ne sep' hv cs
    have ih' := ih (fun hm => h (List.mem_cons_of_mem c hm))
    exact pySplitL_cons_of_not_pre hpre ih'

theorem containsSubAux_append_self (pat t : List Char) (hne : pat ≠ []) :
    containsSubAux pat (pat ++ t) = true := by
  cases pat with
  | nil => exact absurd rfl hne
  | cons c cs =>
    show containsSubAux (c :: cs) (c :: (cs ++ t)) = true
    simp only [containsSubAux]
    have := isPrefixOf_append (c :: cs) t
    simp only [List.cons_append] at this
    simp [this]

/-! ### Lemmas about the decimal-digit models -/

theorem isDigitChar_digitChar (r : Nat) (h : r < 10) :
    isDigitChar (digitChar r) = true := by
  interval_cases r <;> decide

theorem digitVal_digitChar (r : Nat) (h : r < 10) : digitVal (digitChar r) = r := by
  interval_cases r <;> decide

theorem natDigitsAux_congr :
    ∀ f₁ n, n < f₁ → ∀ f₂, n < f₂ → natDigitsAux f₁ n = natDigitsAux f₂ n := by
  intro f₁
  induction f₁ with
  | zero => intro n h; omega
  | succ g ih =>
    intro n hn f₂ h₂
    cases f₂ with
    | zero => omega
    | succ f =>
      simp only [natDigitsAux]
      by_cases h10 : n < 10
      · simp [h10]
      · simp only [h10, if_false]
        have hdiv : n / 10 < n := Nat.div_lt_self (by omega) (by omega)
        rw [ih (n / 10) (by omega) f (by omega)]

theorem natDigits_unfold (n : Nat) :
    natDigits n =
      if n < 10 then [digitChar n]
      else natDigits (n / 10) ++ [digitChar (n % 10)] := by
  show natDigitsAux (n + 1) n = _
  simp only [natDigitsAux]
  by_cases h10 : n < 10
  · simp [h10]
  · simp only [h10, if_false]
    have hdiv : n / 10 < n := Nat.div_lt_self (by omega) (by omega)
    rw [natDigitsAux_congr n (n / 10) (by omega) (n / 10 + 1) (by omega)]
    rfl

theorem natDigits_mem_digit (n : Nat) :
    ∀ c ∈ natDigits n, isDigitChar c = true := by
  induction n using Nat.strong_induction_on with
  | _ n ih =>
    rw [natDigits_unfold]
    by_cases h10 : n < 10
    · simp only [h10, if_true]
      intro c hc
      rw [List.mem_singleton.mp hc]
      exact isDigitChar_digitChar n h10
    · simp only [h10, if_false]
      intro c hc
      rcases List.mem_append.mp hc with hl | hr
      · exact ih (n / 10) (Nat.div_lt_self (by omega) (by omega)) c hl
      · rw [List.mem_singleton.mp hr]
        exact isDigitChar_digitChar (n % 10) (Nat.mod_lt n (by omega))

theorem natDigits_ne_nil (n : Nat) : natDigits n ≠ [] := by
  rw [natDigits_unfold]
  by_cases h10 : n < 10 <;> simp [h10]

theorem digitsVal_natDigits (n : Nat) : digitsVal (natDigits n) = some n := by
  induction n using Nat.strong_induction_on with
  | _ n ih =>
    rw [natDigits_unfold]
    by_cases h10 : n < 10
    · simp only [h10, if_true]
      simp [digitsVal, isDigitChar_digitChar n h10, digitVal_digitChar n h10]
    · simp only [h10, if_false]
      have hrec := ih (n / 10) (Nat.div_lt_self (by omega) (by omega))
      simp only [digitsVal] at hrec ⊢
      rw [List.foldl_append, hrec]
      have hlt : n % 10 < 10 := Nat.mod_lt n (by omega)
      simp [isDigitChar_digitChar _ hlt, digitVal_digitChar _ hlt]
      omega

theorem parseDigits_natDigits (n : Nat) : parseDigits (natDigits n) = some n := by
  unfold parseDigits
  rw [if_neg (by simpa [List.isEmpty_iff] using natDigits_ne_nil n)]
  exact digitsVal_natDigits n

theorem digit_not_whitespace (c : Char) (h : isDigitChar c = true) :
    c.isWhitespace = false := by
  by_contra hw
  rw [Bool.not_eq_false] at hw
  have hcases : c = ' ' ∨ c = '\t' ∨ c = '\r' ∨ c = '\n' := by
    simpa [Char.isWhitespace, or_assoc] using hw
  rcases hcases with e | e | e | e <;> (subst e; exact absurd h (by decide))

theorem digit_ne_of_toNat {c d : Char} (h : isDigitChar c = true)
    (hd : d.toNat < 48 ∨ 57 < d.toNat) : c ≠ d := by
  intro e
  have hb : 48 ≤ c.toNat ∧ c.toNat ≤ 57 := by simpa [isDigitChar] using h
  subst e
  omega

theorem dropWhile_eq_self_of_forall {p : Char → Bool} (l : List Char)
    (h : ∀ c ∈ l, p c = false) : l.dropWhile p = l := by
  cases l with
  | nil => rfl
  | cons c cs =>
    rw [List.dropWhile_cons]
    simp [h c (List.mem_cons_self c cs)]

theorem pyStrip_digits (cs : List Char) (h : ∀ c ∈ cs, isDigitChar c = true) :
    pyStrip cs = cs := by
  unfold pyStrip
  rw [dropWhile_eq_self_of_forall cs (fun c hc => digit_not_whitespace c (h c hc))]
  rw [dropWhile_eq_self_of_forall cs.reverse
    (fun c hc => digit_not_whitespace c (h c (List.mem_reverse.mp hc)))]
  exact List.reverse_reverse cs

theorem pyIntList_natDigits (m : Nat) : pyIntList (natDigits m) = some (m : Int) := by
  unfold pyIntList
  rw [pyStrip_digits _ (natDigits_mem_digit m)]
  obtain ⟨c, rest, hcr⟩ : ∃ c rest, natDigits m = c :: rest := by
    cases hnd : natDigits m with
    | nil => exact absurd hnd (natDigits_ne_nil m)
    | cons c rest => exact ⟨c, rest, rfl⟩
  have hc : isDigitChar c = true :=
    natDigits_mem_digit m c (hcr ▸ List.mem_cons_self c rest)
  have hminus : c ≠ '-' := digit_ne_of_toNat hc (Or.inl (by decide))
  have hplus : c ≠ '+' := digit_ne_of_toNat hc (Or.inl (by decide))
  rw [hcr]
  show (if c = '-' then
          match parseDigits rest with
          | some n => some (-(n : Int))
          | none => none
        else if c = '+' then
          match parseDigits rest with
          | some n => some ((n : Int))
          | none => none
        else
          match parseDigits (c :: rest) with
          | some n => some ((n : Int))
          | none => none) = some (m : Int)
  rw [if_neg hminus, if_neg hplus, ← hcr, parseDigits_natDigits]

/-! ### Computations on the generated candidate name -/

theorem string_data_append (a b : String) : (a ++ b).data = a.data ++ b.data := by
  cases a
  cases b
  rfl

theorem pySplit_mkName_sep (m : Nat) :
    pySplit ("VANB-Rx-" ++ natRepr m) "VANB-Rx-" = ["", String.mk (natDigits m)] := by
  unfold pySplit
  rw [string_data_append, show (natRepr m).data = natDigits m from rfl]
  have hV : 'V' ∉ natDigits m := fun hmem =>
    absurd (natDigits_mem_digit m 'V' hmem) (by decide)
  rw [pySplitL_match _ _ (by decide)]
  rw [show ("VANB-Rx-" : String).data = 'V' :: ['A', 'N', 'B', '-', 'R', 'x', '-'] from rfl]
  rw [pySplitL_no_occurrence 'V' _ _ hV]
  rfl

theorem parseRxNum_mkName (m : Nat) (hm : 0 < m) :
    parseRxNum ("VANB-Rx-" ++ natRepr m) = some m := by
  unfold parseRxNum
  have hcont : pyContains ("VANB-Rx-" ++ natRepr m) "VANB-Rx-" = true := by
    unfold pyContains
    rw [string_data_append, show (natRepr m).data = natDigits m from rfl]
    exact containsSubAux_append_self _ _ (by decide)
  rw [if_pos hcont, pySplit_mkName_sep]
  have h1 : pyLastD ["", String.mk (natDigits m)] = String.mk (natDigits m) := rfl
  rw [h1]
  have h2 : pySplit (String.mk (natDigits m)) ")" = [String.mk (natDigits m)] := by
    unfold pySplit
    have hP : ')' ∉ natDigits m := fun hmem =>
      absurd (natDigits_mem_digit m ')' hmem) (by decide)
    rw [show (")" : String).data = [')'] from rfl]
    rw [show (String.mk (natDigits m)).data = natDigits m from rfl]
    rw [pySplitL_no_occurrence ')' [] _ hP]
    rfl
  rw [h2]
  have h3 : pyHeadD [String.mk (natDigits m)] = String.mk (natDigits m) := rfl
  rw [h3]
  have h4 : pyInt (String.mk (natDigits m)) = some (m : Int) := pyIntList_natDigits m
  rw [h4]
  show (if 0 < (m : Int) then some (m : Int).toNat else none) = some m
  rw [if_pos (by exact_mod_cast hm)]
  simp

theorem pySplit_mkName_dash (m : Nat) :
    pySplit ("VANB-Rx-" ++ natRepr m) "-" = ["VANB", "Rx", String.mk (natDigits m)] := by
  unfold pySplit
  rw [string_data_append, show (natRepr m).data = natDigits m from rfl]
  have hD : '-' ∉ natDigits m := fun hmem =>
    absurd (natDigits_mem_digit m '-' hmem) (by decide)
  have s0 : pySplitL ['-'] (natDigits m) = [natDigits m] :=
    pySplitL_no_occurrence '-' [] _ hD
  have s1 : pySplitL ['-'] ('-' :: natDigits m) = [] :: [natDigits m] := by
    have h := pySplitL_match ['-'] (natDigits m) (by decide)
    rw [s0] at h
    exact h
  have s2 : pySplitL ['-'] ('x' :: '-' :: natDigits m) =
      ('x' :: []) :: [natDigits m] :=
    pySplitL_cons_of_not_pre (isPrefixOf_cons_of_ne [] (by decide) _) s1
  have s3 : pySplitL ['-'] ('R' :: 'x' :: '-' :: natDigits m) =
      ('R' :: 'x' :: []) :: [natDigits m] :=
    pySplitL_cons_of_not_pre (isPrefixOf_cons_of_ne [] (by decide) _) s2
  have s4 : pySplitL ['-'] ('-' :: 'R' :: 'x' :: '-' :: natDigits m) =
      [] :: ('R' :: 'x' :: []) :: [natDigits m] := by
    have h := pySplitL_match ['-'] ('R' :: 'x' :: '-' :: natDigits m) (by decide)
    rw [s3] at h
    exact h
  have s5 : pySplitL ['-'] ('B' :: '-' :: 'R' :: 'x' :: '-' :: natDigits m) =
      ('B' :: []) :: ('R' :: 'x' :: []) :: [natDigits m] :=
    pySplitL_cons_of_not_pre (isPrefixOf_cons_of_ne [] (by decide) _) s4
  have s6 : pySplitL ['-'] ('N' :: 'B' :: '-' :: 'R' :: 'x' :: '-' :: natDigits m) =
      ('N' :: 'B' :: []) :: ('R' :: 'x' :: []) :: [natDigits m] :=
    pySplitL_cons_of_not_pre (isPrefixOf_cons_of_ne [] (by decide) _) s5
  have s7 : pySplitL ['-']
        ('A' :: 'N' :: 'B' :: '-' :: 'R' :: 'x' :: '-' :: natDigits m) =
      ('A' :: 'N' :: 'B' :: []) :: ('R' :: 'x' :: []) :: [natDigits m] :=
    pySplitL_cons_of_not_pre (isPrefixOf_cons_of_ne [] (by decide) _) s6
  have s8 : pySplitL ['-']
        ('V' :: 'A' :: 'N' :: 'B' :: '-' :: 'R' :: 'x' :: '-' :: natDigits m) =
      ('V' :: 'A' :: 'N' :: 'B' :: []) :: ('R' :: 'x' :: []) :: [natDigits m] :=
    pySplitL_cons_of_not_pre (isPrefixOf_cons_of_ne [] (by decide) _) s7
  rw [show ("-" : String).data = ['-'] from rfl]
  rw [show ("VANB-Rx-" : String).data ++ natDigits m =
    'V' :: 'A' :: 'N' :: 'B' :: '-' :: 'R' :: 'x' :: '-' :: natDigits m from rfl]
  rw [s8]
  rfl

theorem verify_mkName (m : Nat) (hm : 0 < m) (names : List String)
    (hmem : ("VANB-Rx-" ++ natRepr m) ∉ names) :
    verify_ndi_name ("VANB-Rx-" ++ natRepr m) names = true := by
  unfold verify_ndi_name
  have h1 : pyStartsWith ("VANB-Rx-" ++ natRepr m) "VANB-Rx-" = true := by
    unfold pyStartsWith
    rw [string_data_append]
    exact isPrefixOf_append _ _
  rw [if_neg (by rw [h1]; simp)]
  rw [pySplit_mkName_dash]
  have h2 : pyLastD ["VANB", "Rx", String.mk (natDigits m)] =
      String.mk (natDigits m) := rfl
  rw [h2]
  have h3 : pyInt (String.mk (natDigits m)) = some (m : Int) := pyIntList_natDigits m
  rw [h3]
  show (if (m : Int) ≤ 0 then false
        else names.all fun existing_name =>
          ("VANB-Rx-" ++ natRepr m) ≠ existing_name) = true
  rw [if_neg (by exact_mod_cast Nat.not_le.mpr hm)]
  rw [List.all_eq_true]
  intro x hx
  simp only [decide_eq_true_eq]
  intro e
  exact hmem (by rw [e]; exact hx)

/-! ### The sequence-number search -/

theorem seqLoop_ge (ex : List Nat) : ∀ fuel k, k ≤ seqLoop ex fuel k := by
  intro fuel
  induction fuel with
  | zero => intro k; simp [seqLoop]
  | succ g ih =>
    intro k
    unfold seqLoop
    by_cases hk : k ∈ ex
    · rw [if_pos hk]
      exact Nat.le_trans (Nat.le_succ k) (ih (k + 1))
    · rw [if_neg hk]

theorem seqLoop_below (ex : List Nat) :
    ∀ fuel k j, k ≤ j → j < seqLoop ex fuel k → j ∈ ex := by
  intro fuel
  induction fuel with
  | zero =>
    intro k j h1 h2
    simp [seqLoop] at h2
    omega
  | succ g ih =>
    intro k j h1 h2
    unfold seqLoop at h2
    by_cases hk : k ∈ ex
    · rw [if_pos hk] at h2
      rcases Nat.eq_or_lt_of_le h1 with he | hlt
      · exact he ▸ hk
      · exact ih (k + 1) j hlt h2
    · rw [if_neg hk] at h2
      omega

theorem countP_ge_split (ex : List Nat) (k : Nat) :
    ex.countP (fun x => k ≤ x) =
      ex.countP (fun x => k + 1 ≤ x) + ex.count k := by
  induction ex with
  | nil => rfl
  | cons a l ih =>
    rw [List.countP_cons, List.countP_cons, List.count_cons]
    by_cases ha : a = k
    · subst ha
      simp
      omega
    · by_cases hka : k ≤ a
      · have : k + 1 ≤ a := by omega
        simp [hka, this, ha]
        omega
      · have : ¬(k + 1 ≤ a) := by omega
        simp [hka, this, ha]
        omega

theorem seqLoop_not_mem (ex : List Nat) :
    ∀ fuel k, ex.countP (fun x => k ≤ x) ≤ fuel → seqLoop ex fuel k ∉ ex := by
  intro fuel
  induction fuel with
  | zero =>
    intro k h hk
    simp only [seqLoop] at hk
    have : 0 < ex.countP (fun x => k ≤ x) :=
      List.countP_pos_iff.mpr ⟨k, hk, by simp⟩
    omega
  | succ g ih =>
    intro k h
    unfold seqLoop
    by_cases hk : k ∈ ex
    · rw [if_pos hk]
      apply ih
      have hsplit := countP_ge_split ex k
      have hcount : 1 ≤ ex.count k := List.count_pos_iff.mpr hk
      omega
    · rw [if_neg hk]
      exact hk

theorem get_sequence_number_spec (names : List String) :
    0 < get_sequence_number names ∧
      get_sequence_number names ∉ names.filterMap parseRxNum ∧
      ∀ j, 0 < j → j < get_sequence_number names →
        j ∈ names.filterMap parseRxNum := by
  unfold get_sequence_number
  refine ⟨?_, ?_, ?_⟩
  · exact Nat.lt_of_lt_of_le Nat.zero_lt_one (seqLoop_ge _ _ 1)
  · exact seqLoop_not_mem _ _ 1
      (Nat.le_trans (List.countP_le_length _) (Nat.le_succ _))
  · intro j hj hlt
    exact seqLoop_below _ _ 1 j hj hlt

/-! ### Claim theorems -/

/-- C1 (counterexample): the claim states that for every prefix the
allocator returns `prefix-m` with `m` the smallest positive integer not
used by an existing `prefix-<n>` name; with prefix `"VANB-Tx"` and no
existing names it should return `"VANB-Tx-1"`, but the code raises a
`ValueError` because `_verify_ndi_name` checks the hardcoded
`"VANB-Rx-"` prefix. -/
theorem allocator_rejects_other_prefix :
    generate_unique_name "VANB-Tx" (some []) =
      Except.error "无法使用NDI名称: VANB-Tx-1 (已被占用)" ∧
    generate_unique_name "VANB-Tx" (some []) ≠ Except.ok "VANB-Tx-1" := by
  decide

/-- C1 (amended): for the default prefix `"VANB-Rx"` the allocator
returns `"VANB-Rx-m"` where `m` is the smallest positive integer not
among the numbers extracted from the scanned names (the text after the
last `"VANB-Rx-"` and before the first `")"`, parsed as an integer and
kept when positive); names yielding no positive number are ignored and
cause no error. -/
theorem allocator_default_prefix_first_gap (scan : Option (List String)) :
    ∃ m : Nat, 0 < m ∧
      generate_unique_name "VANB-Rx" scan =
        Except.ok ("VANB-Rx-" ++ natRepr m) ∧
      m ∉ rxNumbers scan ∧
      ∀ j : Nat, 0 < j → j < m → j ∈ rxNumbers scan := by
  obtain ⟨hpos, hnot, hmin⟩ := get_sequence_number_spec (namesOf scan)
  refine ⟨get_sequence_number (namesOf scan), hpos, ?_, hnot, hmin⟩
  have hfresh :
      ("VANB-Rx-" ++ natRepr (get_sequence_number (namesOf scan))) ∉ namesOf scan := by
    intro hmem
    exact hnot (List.mem_filterMap.mpr ⟨_, hmem, parseRxNum_mkName _ hpos⟩)
  have hver := verify_mkName _ hpos (namesOf scan) hfresh
  simp only [generate_unique_name]
  rw [show ("VANB-Rx" : String) ++ "-" = "VANB-Rx-" from by decide]
  rw [show (scan_sources scan).map (fun s => s.name) = namesOf scan from rfl]
  rw [if_pos hver]

/-- C2: with maximum 3 and counter 0, `handle_error` returns true on
calls 1–3 and false from call 4 on; after `reset_retry_count` the
counter is 0 and the next call returns true again. -/
theorem handle_error_retry_cycle (n : Nat) (h : 0 < n) :
    (handle_error (callsN (n - 1) LifecycleManager.new)).1 = decide (n ≤ 3) ∧
    (reset_retry_count (callsN (n - 1) LifecycleManager.new)).retry_count = 0 ∧
    (handle_error (reset_retry_count (callsN (n - 1) LifecycleManager.new))).1 = true := by
  have hcall : ∀ k, callsN k LifecycleManager.new = ⟨k, 3⟩ := by
    intro k
    induction k with
    | zero => rfl
    | succ j ih =>
      simp only [callsN, ih, handle_error]
      split <;> rfl
  rw [hcall]
  refine ⟨?_, rfl, rfl⟩
  simp only [handle_error]
  have hn : n - 1 + 1 = n := by omega
  by_cases h3 : n ≤ 3
  · rw [if_neg (by simp only [hn]; omega)]
    simp [h3]
  · rw [if_pos (by simp only [hn]; omega)]
    simp [h3]

/-- Witness for C2 at the fourth call. -/
theorem handle_error_retry_cycle_witness :
    0 < 4 ∧
    ((handle_error (callsN (4 - 1) LifecycleManager.new)).1 = decide (4 ≤ 3) ∧
     (reset_retry_count (callsN (4 - 1) LifecycleManager.new)).retry_count = 0 ∧
     (handle_error (reset_retry_count (callsN (4 - 1) LifecycleManager.new))).1 = true) :=
  ⟨by decide, handle_error_retry_cycle 4 (by decide)⟩

/-- C3 (counterexample): the claim states that restart replays every
field of the saved config and re-derives nothing from a fresh scan; for
a Receive context saved with NDI name `"VANB-Rx-1"`, restarting while
the scan still reports `"VANB-Rx-1"` yields a new context whose config
carries the regenerated name `"VANB-Rx-2"`, not the saved one. -/
theorem restart_regenerates_receive_name :
    (restart_pipeline envRestartRx ⟨some ctxRx1, true⟩).context =
      some
        { mode := PipelineMode.receive, pipeline := true,
          lifecycle_manager := some { retry_count := 0, max_retries := 3 },
          start_time := 5,
          config := PipelineConfig.rx "rtmp://s/l" "VANB-Rx-2" } ∧
    (restart_pipeline envRestartRx ⟨some ctxRx1, true⟩).context ≠
      some { ctxRx1 with start_time := 5 } := by
  decide

/-- C3 (amended): `_restart_pipeline` replays the exact saved mode and
config as the keyword arguments of a fresh `start_pipeline` call; a
Transmit config (with non-empty saved source) is rebuilt identically —
in particular the source peer is not re-resolved — while a Receive
config keeps its endpoint URL but has its NDI output name regenerated
from a fresh scan. -/
theorem restart_replays_saved_mode_config (env : Env) (st : ManagerState)
    (ctx : PipelineContext) (h : st.context = some ctx) :
    restart_pipeline env st =
      (start_pipeline env (stop_pipeline st) ctx.mode (configToKwargs ctx.config)).2 ∧
    (∀ src url vb ab vf ar ac, ctx.mode = PipelineMode.transmit →
      ctx.config = PipelineConfig.tx src url vb ab vf ar ac → src ≠ "" →
      create_pipeline_config env ctx.mode (configToKwargs ctx.config) =
        Except.ok ctx.config) ∧
    (∀ url name, ctx.mode = PipelineMode.receive →
      ctx.config = PipelineConfig.rx url name →
      create_pipeline_config env ctx.mode (configToKwargs ctx.config) =
        (generate_unique_name "VANB-Rx" env.scan).map
          (fun nm => PipelineConfig.rx url nm)) := by
  refine ⟨by simp [restart_pipeline, h], ?_, ?_⟩
  · intro src url vb ab vf ar ac hmode hcfg hsrc
    rw [hmode, hcfg]
    simp [create_pipeline_config, configToKwargs, hsrc]
  · intro url name hmode hcfg
    rw [hmode, hcfg]
    simp only [create_pipeline_config, configToKwargs, Option.getD_some]
    cases hg : generate_unique_name "VANB-Rx" env.scan <;> simp [hg, Except.map]

/-- Witness for C3 (amended) on a concrete Transmit context: the saved
source `"CamA"` is rebuilt identically even though the fresh scan is
empty. -/
theorem restart_replays_saved_mode_config_witness :
    (⟨some ctxTxA, true⟩ : ManagerState).context = some ctxTxA ∧
    (∀ src url vb ab vf ar ac, ctxTxA.mode = PipelineMode.transmit →
      ctxTxA.config = PipelineConfig.tx src url vb ab vf ar ac → src ≠ "" →
      create_pipeline_config envHealthy ctxTxA.mode (configToKwargs ctxTxA.config) =
        Except.ok ctxTxA.config) :=
  ⟨rfl, (restart_replays_saved_mode_config envHealthy ⟨some ctxTxA, true⟩ ctxTxA rfl).2.1⟩

/-- C4 (counterexample): the claim states that whenever `start_pipeline`
returns false no context is recorded; but when config and factory
succeed and only the lifecycle start sequence fails (here the engine
`create()` call), the freshly built context is already recorded and
stays recorded. -/
theorem start_failure_leaves_dangling_context :
    (start_pipeline envCreateFails ⟨none, false⟩ PipelineMode.receive
        { rtmp_url := some "rtmp://s/l" }).1 = false ∧
    (start_pipeline envCreateFails ⟨none, false⟩ PipelineMode.receive
        { rtmp_url := some "rtmp://s/l" }).2.context =
      some
        { mode := PipelineMode.receive, pipeline := true,
          lifecycle_manager := some { retry_count := 0, max_retries := 3 },
          start_time := 7, config := PipelineConfig.rx "rtmp://s/l" "VANB-Rx-1" } := by
  decide

/-- C4 (amended): starting from a coordinator with no context, a
`start_pipeline` failure during config building or pipeline construction
records no context; a failure of the lifecycle start sequence returns
false but leaves the freshly created context recorded. -/
theorem start_pipeline_failure_paths (env : Env) (st : ManagerState)
    (mode : PipelineMode) (kwargs : Kwargs) (h : st.context = none) :
    (∀ e, create_pipeline_config env mode kwargs = Except.error e →
      start_pipeline env st mode kwargs = (false, st)) ∧
    (∀ config, create_pipeline_config env mode kwargs = Except.ok config →
      factory_create env (pipelineTypeOf mode) config = false →
      start_pipeline env st mode kwargs = (false, st)) ∧
    (∀ config, create_pipeline_config env mode kwargs = Except.ok config →
      factory_create env (pipelineTypeOf mode) config = true →
      lifecycle_start env.create_ok env.play_ok = false →
      start_pipeline env st mode kwargs =
        (false, { st with context := some (fresh_context env mode config) })) := by
  refine ⟨?_, ?_, ?_⟩
  · intro e he
    simp [start_pipeline, ensure_stopped, h, he]
  · intro config hc hf
    simp [start_pipeline, ensure_stopped, h, hc, hf]
  · intro config hc hf hl
    simp [start_pipeline, ensure_stopped, h, hc, hf, hl]

/-- Witness for C4 (amended): the engine `create()` failure path at a
concrete input. -/
theorem start_pipeline_failure_paths_witness :
    (⟨none, false⟩ : ManagerState).context = none ∧
    (∀ config,
      create_pipeline_config envCreateFails PipelineMode.receive
        { rtmp_url := some "rtmp://s/l" } = Except.ok config →
      factory_create envCreateFails (pipelineTypeOf PipelineMode.receive) config = true →
      lifecycle_start envCreateFails.create_ok envCreateFails.play_ok = false →
      start_pipeline envCreateFails ⟨none, false⟩ PipelineMode.receive
          { rtmp_url := some "rtmp://s/l" } =
        (false, { (⟨none, false⟩ : ManagerState) with
                    context := some (fresh_context envCreateFails PipelineMode.receive config) })) :=
  ⟨rfl, (start_pipeline_failure_paths envCreateFails ⟨none, false⟩
    PipelineMode.receive { rtmp_url := some "rtmp://s/l" } rfl).2.2⟩

/-- C5: a Transmit start with no (or an empty, hence falsy) source peer
resolves to the first active peer of the scan result; with no active
peer, config building raises and `start_pipeline` returns false leaving
the context absent. -/
theorem transmit_auto_select (env : Env) (st : ManagerState) (kwargs : Kwargs)
    (url : String) (hurl : kwargs.rtmp_url = some url)
    (hsrc : kwargs.ndi_source.getD "" = "") (hctx : st.context = none) :
    (∀ s rest, (scan_sources env.scan).filter (fun x => x.is_active) = s :: rest →
      create_pipeline_config env PipelineMode.transmit kwargs =
        Except.ok (PipelineConfig.tx s.name url (kwargs.video_bitrate.getD 2000)
          (kwargs.audio_bitrate.getD 128000) (kwargs.video_format.getD "I420")
          (kwargs.audio_rate.getD 44100) (kwargs.audio_channels.getD 2))) ∧
    ((scan_sources env.scan).filter (fun x => x.is_active) = [] →
      create_pipeline_config env PipelineMode.transmit kwargs =
        Except.error "未找到活跃的NDI源" ∧
      start_pipeline env st PipelineMode.transmit kwargs = (false, st)) := by
  constructor
  · intro s rest hfil
    simp [create_pipeline_config, hurl, hsrc, hfil]
  · intro hfil
    have hcfg : create_pipeline_config env PipelineMode.transmit kwargs =
        Except.error "未找到活跃的NDI源" := by
      simp [create_pipeline_config, hurl, hsrc, hfil]
    exact ⟨hcfg, by simp [start_pipeline, ensure_stopped, hctx, hcfg]⟩

/-- Witness for C5: empty scan, hence no active peer. -/
theorem transmit_auto_select_witness :
    ({ rtmp_url := some "rtmp://s/l" } : Kwargs).rtmp_url = some "rtmp://s/l" ∧
    ({ rtmp_url := some "rtmp://s/l" } : Kwargs).ndi_source.getD "" = "" ∧
    (⟨none, false⟩ : ManagerState).context = none ∧
    (((scan_sources envHealthy.scan).filter (fun x => x.is_active) = [] →
      create_pipeline_config envHealthy PipelineMode.transmit
          { rtmp_url := some "rtmp://s/l" } = Except.error "未找到活跃的NDI源" ∧
      start_pipeline envHealthy ⟨none, false⟩ PipelineMode.transmit
          { rtmp_url := some "rtmp://s/l" } = (false, ⟨none, false⟩))) :=
  ⟨rfl, rfl, rfl,
    (transmit_auto_select envHealthy ⟨none, false⟩ { rtmp_url := some "rtmp://s/l" }
      "rtmp://s/l" rfl rfl rfl).2⟩

/-- C6 (counterexample): with the retry budget exhausted,
`handle_error` returns false, yet the monitor callback returns `True`
to the timer — it keeps rescheduling itself instead of deregistering as
the claim states (only the retry counter advances; no restart is
attempted). -/
theorem monitor_reschedules_after_exhaustion :
    (handle_error { retry_count := 3, max_retries := 3 }).1 = false ∧
    (monitor envRestartRx ⟨some ctxTxExhausted, true⟩).1 = true ∧
    (monitor envRestartRx ⟨some ctxTxExhausted, true⟩).2 =
      ⟨some { ctxTxExhausted with
        lifecycle_manager := some { retry_count := 4, max_retries := 3 } }, true⟩ := by
  decide

/-- C6 (amended): when the dead-pipeline check fires and `handle_error`
returns false (retry exhausted), the monitor attempts no restart and
leaves the pipeline stopped — only the retry counter inside the context
advances — but the callback returns `true`, so the timer keeps
rescheduling it; it deregisters only once the monitoring flag is
cleared. -/
theorem monitor_exhausted_no_restart_but_reschedules (env : Env) (st : ManagerState)
    (ctx : PipelineContext) (lm : LifecycleManager) (hmon : st.monitoring = true)
    (hctx : st.context = some ctx) (hlm : ctx.lifecycle_manager = some lm)
    (hrun : is_running env st = false) (hex : (handle_error lm).1 = false) :
    monitor env st =
      (true, { st with
                 context := some ({ ctx with
                                      lifecycle_manager := some (handle_error lm).2 }) }) ∧
    (∀ st' : ManagerState, st'.monitoring = false → monitor env st' = (false, st')) := by
  constructor
  · simp [monitor, hmon, hrun, hctx, hlm, hex]
  · intro st' hoff
    simp [monitor, hoff]

/-- Witness for C6 (amended) at the concrete exhausted context. -/
theorem monitor_exhausted_witness :
    ((⟨some ctxTxExhausted, true⟩ : ManagerState).monitoring = true ∧
     (⟨some ctxTxExhausted, true⟩ : ManagerState).context = some ctxTxExhausted ∧
     ctxTxExhausted.lifecycle_manager = some { retry_count := 3, max_retries := 3 } ∧
     is_running envRestartRx ⟨some ctxTxExhausted, true⟩ = false ∧
     (handle_error { retry_count := 3, max_retries := 3 }).1 = false) ∧
    monitor envRestartRx ⟨some ctxTxExhausted, true⟩ =
      (true, { (⟨some ctxTxExhausted, true⟩ : ManagerState) with
                 context := some ({ ctxTxExhausted with
                                      lifecycle_manager :=
                                        some (handle_error
                                          { retry_count := 3, max_retries := 3 }).2 }) }) :=
  ⟨⟨rfl, rfl, rfl, rfl, rfl⟩,
    (monitor_exhausted_no_restart_but_reschedules envRestartRx
      ⟨some ctxTxExhausted, true⟩ ctxTxExhausted
      { retry_count := 3, max_retries := 3 } rfl rfl rfl rfl rfl).1⟩

/-- C7: `stop_pipeline` with no active context raises nothing and
changes no state (context stays absent, monitoring flag untouched), and
repeated calls are idempotent. -/
theorem stop_pipeline_no_context_noop (st : ManagerState) (h : st.context = none) :
    stop_pipeline st = st ∧ stop_pipeline (stop_pipeline st) = st := by
  have h1 : stop_pipeline st = st := by simp [stop_pipeline, h]
  exact ⟨h1, by rw [h1, h1]⟩

/-- Witness for C7 with the monitoring flag set. -/
theorem stop_pipeline_no_context_noop_witness :
    (⟨none, true⟩ : ManagerState).context = none ∧
    (stop_pipeline ⟨none, true⟩ = ⟨none, true⟩ ∧
     stop_pipeline (stop_pipeline ⟨none, true⟩) = ⟨none, true⟩) :=
  ⟨rfl, stop_pipeline_no_context_noop ⟨none, true⟩ rfl⟩

/-- C8: the lifecycle stop sequence returns normally for every
behaviour — raising or not — of the `pre_stop` hook, the handle's
`stop()` and the `post_stop` hook. -/
theorem lifecycle_stop_never_raises (a b c : Except String Unit) :
    lifecycle_stop a b c = Except.ok () := by
  cases a <;> cases b <;> cases c <;> rfl

/-- The monitoring-flag step does not touch the context. -/
theorem start_monitoring_context (st : ManagerState) :
    (start_monitoring st).context = st.context := by
  unfold start_monitoring
  split <;> rfl

/-- Helper: `stop_pipeline` either clears the context or leaves the state as is. -/
theorem stop_pipeline_context (st : ManagerState) :
    (stop_pipeline st).context = none ∨ stop_pipeline st = st := by
  unfold stop_pipeline
  split
  · split
    · exact Or.inl rfl
    · exact Or.inr rfl
  · exact Or.inr rfl

/-- The context after `start_pipeline` is cleared, carried over, or a
freshly constructed one. -/
theorem start_pipeline_context_shape (env : Env) (st : ManagerState)
    (mode : PipelineMode) (kwargs : Kwargs) :
    (start_pipeline env st mode kwargs).2.context = none ∨
    (start_pipeline env st mode kwargs).2.context = st.context ∨
    ∃ config, (start_pipeline env st mode kwargs).2.context =
      some (fresh_context env mode config) := by
  have hst1 : (ensure_stopped st).context = none ∨
      (ensure_stopped st).context = st.context := by
    unfold ensure_stopped
    split
    · next ctx heq =>
        split
        · rcases stop_pipeline_context st with h | h
          · exact Or.inl h
          · rw [h]
            exact Or.inr rfl
        · exact Or.inr rfl
    · exact Or.inr rfl
  simp only [start_pipeline]
  split
  · rcases hst1 with h | h
    · exact Or.inl h
    · exact Or.inr (Or.inl h)
  · next config heq =>
      by_cases hf : factory_create env (pipelineTypeOf mode) config = true
      · rw [if_neg (by simp [hf])]
        by_cases hl : lifecycle_start env.create_ok env.play_ok = true
        · rw [if_neg (by simp [hl])]
          refine Or.inr (Or.inr ⟨config, ?_⟩)
          rw [start_monitoring_context]
        · rw [if_pos (by simp [hl])]
          exact Or.inr (Or.inr ⟨config, rfl⟩)
      · rw [if_pos (by simp [hf])]
        rcases hst1 with h | h
        · exact Or.inl h
        · exact Or.inr (Or.inl h)

/-- C9: a context recorded by `start_pipeline` is either the
carried-over previous context or carries a freshly constructed
lifecycle manager with counter 0 and maximum 3; and every context
present after a monitor-driven `_restart_pipeline` of a real context
(one holding a lifecycle manager) carries a fresh manager — the retry
counter never survives a restart (`reset_retry_count` has no caller in
the repository). -/
theorem restart_context_has_fresh_retry_state (env : Env) (st : ManagerState)
    (mode : PipelineMode) (kwargs : Kwargs) :
    (∀ ctx', (start_pipeline env st mode kwargs).2.context = some ctx' →
      st.context = some ctx' ∨ ctx'.lifecycle_manager = some LifecycleManager.new) ∧
    (∀ ctx lm ctx', st.context = some ctx → ctx.lifecycle_manager = some lm →
      (restart_pipeline env st).context = some ctx' →
      ctx'.lifecycle_manager = some LifecycleManager.new) := by
  constructor
  · intro ctx' hres
    rcases start_pipeline_context_shape env st mode kwargs with h | h | ⟨config, h⟩
    · rw [h] at hres
      exact absurd hres (by simp)
    · rw [h] at hres
      exact Or.inl hres
    · rw [h] at hres
      right
      rw [← Option.some_inj.mp hres]
      rfl
  · intro ctx lm ctx' hctx hlm hres
    have hstop : stop_pipeline st = { context := none, monitoring := false } := by
      simp [stop_pipeline, hctx, hlm]
    have hres' : (start_pipeline env (stop_pipeline st) ctx.mode
        (configToKwargs ctx.config)).2.context = some ctx' := by
      have hrw : restart_pipeline env st =
          (start_pipeline env (stop_pipeline st) ctx.mode
            (configToKwargs ctx.config)).2 := by
        simp [restart_pipeline, hctx]
      rwa [hrw] at hres
    rw [hstop] at hres'
    rcases start_pipeline_context_shape env { context := none, monitoring := false }
        ctx.mode (configToKwargs ctx.config) with h | h | ⟨config, h⟩
    · rw [h] at hres'
      exact absurd hres' (by simp)
    · rw [h] at hres'
      exact absurd hres' (by simp)
    · rw [h] at hres'
      rw [← Option.some_inj.mp hres']
      rfl

/-- Witness for C9: the monitor-driven restart of the exhausted Transmit
context yields a context whose retry counter is 0 again. -/
theorem restart_context_has_fresh_retry_state_witness :
    ((⟨some ctxTxExhausted, true⟩ : ManagerState).context = some ctxTxExhausted ∧
     ctxTxExhausted.lifecycle_manager = some { retry_count := 3, max_retries := 3 } ∧
     (restart_pipeline envHealthy ⟨some ctxTxExhausted, true⟩).context =
       some (fresh_context envHealthy PipelineMode.transmit
         (PipelineConfig.tx "CamA" "rtmp://s/l" 2000 128000 "I420" 44100 2))) ∧
    (fresh_context envHealthy PipelineMode.transmit
      (PipelineConfig.tx "CamA" "rtmp://s/l" 2000 128000 "I420"
        44100 2)).lifecycle_manager = some LifecycleManager.new :=
  ⟨⟨rfl, rfl, by decide⟩,
    (restart_context_has_fresh_retry_state envHealthy ⟨some ctxTxExhausted, true⟩
      PipelineMode.transmit {}).2 ctxTxExhausted
      { retry_count := 3, max_retries := 3 } _ rfl rfl (by decide)⟩

/-- C10: for every prefix whose candidate `prefix-n` does not begin
with the literal `"VANB-Rx-"`, `generate_unique_name` raises the
allocation `ValueError` regardless of the scanned names, because
`_verify_ndi_name` checks the hardcoded `"VANB-Rx-"` prefix rather than
the supplied one. -/
theorem wrong_prefix_always_raises (pfx : String) (scan : Option (List String))
    (h : pyStartsWith (pfx ++ "-" ++ natRepr (get_sequence_number (namesOf scan)))
      "VANB-Rx-" = false) :
    generate_unique_name pfx scan =
      Except.error ("无法使用NDI名称: " ++
        (pfx ++ "-" ++ natRepr (get_sequence_number (namesOf scan))) ++ " (已被占用)") := by
  simp only [generate_unique_name]
  rw [show (scan_sources scan).map (fun s => s.name) = namesOf scan from rfl]
  have hver : verify_ndi_name
      (pfx ++ "-" ++ natRepr (get_sequence_number (namesOf scan)))
      (namesOf scan) = false := by
    unfold verify_ndi_name
    rw [if_pos (by rw [h]; rfl)]
  rw [if_neg (by simp [hver])]

/-- Witness for C10: prefix `"VANB-Tx"` with an empty scan. -/
theorem wrong_prefix_always_raises_witness :
    pyStartsWith ("VANB-Tx" ++ "-" ++ natRepr (get_sequence_number (namesOf (some []))))
      "VANB-Rx-" = false ∧
    generate_unique_name "VANB-Tx" (some []) =
      Except.error ("无法使用NDI名称: " ++
        ("VANB-Tx" ++ "-" ++ natRepr (get_sequence_number (namesOf (some [])))) ++
        " (已被占用)") :=
  ⟨by decide, wrong_prefix_always_raises "VANB-Tx" (some []) (by decide)⟩

end VANB

